import Mathlib

/-!
# Server pools plugin (`gamesession/ServerPools.hpp`)

A shallow embedding of the server-pool plugin: the environment configuration
loader (`ServerPoolConfiguration::applyConfig`), the credential selector
(`ServerAuthenticationHandler::retrieveCredentials`), the game-session wait
(`ServerPoolsService::waitGameSession`) and the status / shutdown responder
(`ServerPoolsService::initialize`, `ServerPools::onConnecting`).

Shared pointers are values, weak pointers are `Option`s (`none` once the target
is destroyed), side effects on host objects are explicit state passing.
-/

set_option linter.dupNamespace false

namespace Stormancer

/-! ## Host types used by the plugin -/

/-- A `std::map<std::string, std::string>`, as an association list looked up by key. -/
abbrev StringMap := List (String × String)

/-- The iterator returned by `std::map::find`, dereferenced: the mapped value, or `none` for `end()`. -/
def StringMap.find (m : StringMap) (k : String) : Option String :=
  m.lookup k

/-- The statement `m[k] = v` on a `std::map`: replaces the value of an existing key, inserts otherwise. -/
def StringMap.assign : StringMap → String → String → StringMap
  | [], k, v => [(k, v)]
  | (k', v') :: m, k, v =>
    if k' = k then (k, v) :: m else (k', v') :: StringMap.assign m k v

/-- Modelled from the spec: the host `Stormancer::Configuration` object (declared in the host SDK,
not in this repository), reduced to the members the plugin reads or writes: the two string maps,
the cluster endpoint list behind `clearServerEndpoints` / `addServerEndpoint`, the bind port, the
published address list, the published port and the NAT punch-through switch. The two port members
share one integer type; the conversion from `int` to that type is a parameter of `applyConfig`. -/
structure Configuration where
  additionalHeaders : StringMap
  additionalParameters : StringMap
  serverEndpoints : List String
  port : Int
  publishedAddresses : List String
  publishedPort : Int
  enableNatPunchthrough : Bool
  deriving DecidableEq, Repr

/-- Host method `Configuration::clearServerEndpoints`. -/
def Configuration.clearServerEndpoints (c : Configuration) : Configuration :=
  { c with serverEndpoints := [] }

/-- Host method `Configuration::addServerEndpoint`. -/
def Configuration.addServerEndpoint (c : Configuration) (s : String) : Configuration :=
  { c with serverEndpoints := c.serverEndpoints ++ [s] }

/-- The conversion of an `int` to a 16 bit unsigned port number. -/
def toUInt16 (n : Int) : Int := n % 65536

/-! ## C library functions used by the loader -/

/-- The predicate `isspace` of the C locale: space, `\t`, `\n`, `\v`, `\f`, `\r`. -/
def isspace (c : Char) : Bool :=
  c.toNat = 32 || (9 ≤ c.toNat && c.toNat ≤ 13)

/-- The predicate `isdigit`. -/
def isdigit (c : Char) : Bool :=
  48 ≤ c.toNat && c.toNat ≤ 57

/-- Drops the leading white space, as `atoi` does first. -/
def skipSpace : List Char → List Char
  | [] => []
  | c :: cs => if isspace c then skipSpace cs else c :: cs

/-- Accumulates the leading decimal digits, stopping at the first other character. -/
def digitsValue (acc : Nat) : List Char → Nat
  | [] => acc
  | c :: cs => if isdigit c then digitsValue (acc * 10 + (c.toNat - 48)) cs else acc

/-- The value `std::atoi` computes: leading white space, an optional sign, then as many decimal
digits as follow; `0` when no digit follows. (A value outside the range of `int` is undefined
behaviour in C; the embedding returns the mathematical value.) -/
def atoi (s : String) : Int :=
  match skipSpace s.toList with
  | [] => 0
  | c :: cs =>
    if c = '-' then - (digitsValue 0 cs : Int)
    else if c = '+' then (digitsValue 0 cs : Int)
    else (digitsValue 0 (c :: cs) : Int)

/-- The strings on which `atoi` finds no digit to convert: after the white space and an optional
sign the next character is not a decimal digit (or the string has ended). -/
def noLeadingInteger (s : String) : Bool :=
  match skipSpace s.toList with
  | [] => true
  | c :: cs =>
    if c = '-' ∨ c = '+' then
      (match cs with
        | [] => true
        | d :: _ => !isdigit d)
    else !isdigit c

/-- The values read by the loop `while (getline(f, s, ','))` over a stream holding the given
characters: the fields between the delimiters, where the end of the stream right after a
delimiter (or an empty stream) yields no further field. -/
def getlineAll (delim : Char) : List Char → List String
  | [] => []
  | c :: rest =>
    if c = delim then "" :: getlineAll delim rest
    else
      match getlineAll delim rest with
      | [] => [String.singleton c]
      | s :: ss => (String.singleton c ++ s) :: ss

/-- The process environment as seen by `std::getenv`: `none` for a null result. -/
abbrev Environment := String → Option String

namespace ServerPools

namespace ConfigurationKeys

/-- The key `ConfigurationKeys::GetParametersFromEnv`. -/
def GetParametersFromEnv : String := "server.parameters.fromEnvironmentVariables"

end ConfigurationKeys

/-- The enum `Status`. -/
inductive Status where
  | Unknown
  | Initializing
  | Ready
  | InProgress
  | Complete
  deriving DecidableEq, Repr

namespace details

/-! ## `ServerPoolConfiguration` -/

/-- The class `details::ServerPoolConfiguration`. -/
structure ServerPoolConfiguration where
  authToken : String
  getConfigFromEnvironmentVariables : Bool
  _config : Configuration
  deriving DecidableEq, Repr

/-- The constructor: `authToken` is empty and the flag is `false`. -/
def ServerPoolConfiguration.new (config : Configuration) : ServerPoolConfiguration :=
  { authToken := "", getConfigFromEnvironmentVariables := false, _config := config }

/-- The block guarded by `if (serverEndpoints)`. -/
def applyClusterEndpoints (getenv : Environment) (c : Configuration) : Configuration :=
  match getenv "Stormancer.Server.ClusterEndpoints" with
  | some serverEndpoints =>
    (getlineAll ',' serverEndpoints.toList).foldl
      (fun c s => c.addServerEndpoint s) c.clearServerEndpoints
  | none => c

/-- The block guarded by `if (port)`. -/
def applyPort (toPort : Int → Int) (getenv : Environment) (c : Configuration) : Configuration :=
  match getenv "Stormancer.Server.Port" with
  | some port => { c with port := toPort (atoi port) }
  | none => c

/-- The block guarded by `if (publishedAddresses)`. -/
def applyPublished (toPort : Int → Int) (getenv : Environment) (c : Configuration) :
    Configuration :=
  match getenv "Stormancer.Server.PublishedAddresses" with
  | some publishedAddresses =>
    let c := { c with enableNatPunchthrough := false }
    let c := (getlineAll ',' publishedAddresses.toList).foldl
      (fun c s => { c with publishedAddresses := c.publishedAddresses ++ [s] }) c
    match getenv "Stormancer.Server.PublishedPort" with
    | some publishedPort => { c with publishedPort := toPort (atoi publishedPort) }
    | none => { c with publishedPort := c.port }
  | none => c

/-- The method `ServerPoolConfiguration::applyConfig`. `toPort` is the implicit conversion from
`int` to the type of `Configuration::port`. -/
def ServerPoolConfiguration.applyConfig (toPort : Int → Int) (getenv : Environment)
    (self : ServerPoolConfiguration) : ServerPoolConfiguration :=
  let it := self._config.additionalHeaders.find ConfigurationKeys.GetParametersFromEnv
  let self := { self with getConfigFromEnvironmentVariables := decide (it = some "true") }
  if self.getConfigFromEnvironmentVariables then
    let c := applyClusterEndpoints getenv self._config
    let c := applyPort toPort getenv c
    let c := applyPublished toPort getenv c
    match getenv "Stormancer.Server.AuthenticationToken" with
    | some authToken => { self with _config := c, authToken := authToken }
    | none => { self with _config := c }
  else
    self

/-! ## `ServerAuthenticationHandler` -/

/-- The levels of `LogLevel` the handler uses. -/
inductive LogLevel where
  | Info
  | Warn
  deriving DecidableEq, Repr

/-- One call of `ILogger::log`: level, category, message. -/
structure LogEntry where
  level : LogLevel
  category : String
  message : String
  deriving DecidableEq, Repr

/-- The object behind `CredentialsContext::authParameters`: the credentials type and its
string parameters. -/
structure AuthParameters where
  type : String
  parameters : StringMap
  deriving DecidableEq, Repr

/-- The host type `Users::CredentialsContext`. -/
structure CredentialsContext where
  authParameters : AuthParameters
  deriving DecidableEq, Repr

/-- The class `details::ServerAuthenticationHandler`; `_logger` is the list of entries logged so
far, oldest first. -/
structure ServerAuthenticationHandler where
  _config : ServerPoolConfiguration
  _logger : List LogEntry
  deriving DecidableEq, Repr

/-- The method `ServerAuthenticationHandler::retrieveCredentials`: the credentials context and
the handler (its logger) after the call. -/
def ServerAuthenticationHandler.retrieveCredentials (self : ServerAuthenticationHandler)
    (ctx : CredentialsContext) : CredentialsContext × ServerAuthenticationHandler :=
  if self._config.authToken.length > 0 then
    let logger := self._logger ++ [⟨LogLevel.Info, "auth.dedicatedServer",
      "Auth token found. Authenticated as a game server"⟩]
    let p := { ctx.authParameters with type := "gameServer" }
    let p := { p with parameters := p.parameters.assign "token" self._config.authToken }
    ({ ctx with authParameters := p }, { self with _logger := logger })
  else
    let logger := self._logger ++ [⟨LogLevel.Warn, "auth.dedicatedServer",
      "No auth token found. Auth disabled, trying to connect as an unauthenticated development game server. "⟩]
    let p := { ctx.authParameters with type := "gameServer.dev" }
    ({ ctx with authParameters := p }, { self with _logger := logger })

/-! ## Host RPC service and events -/

/-- An exception thrown by the plugin. -/
inductive Exception where
  | ObjectDeletedException (what : String)
  deriving DecidableEq, Repr

/-- The pending task returned by `RpcService::rpc`: the route of the request and its position
among the requests issued on the service. -/
structure PendingRpc where
  route : String
  index : Nat
  deriving DecidableEq, Repr

/-- Modelled from the spec: the host `Stormancer::RpcService` (declared in the host SDK, not in
this repository) as far as the plugin observes it: whether the object is still alive, which
decides what the weak pointer `_rpcService` locks to, and the routes of the outbound requests
issued on it, oldest first. -/
structure RpcService where
  alive : Bool
  requests : List String
  deriving DecidableEq, Repr

/-- The call `_rpcService.lock()`: the service while it is alive, null afterwards. -/
def RpcService.lock (r : RpcService) : Option RpcService :=
  if r.alive then some r else none

/-- Modelled from the spec: host method `RpcService::rpc<T>(route)`, which issues one outbound
request on the route and returns the pending result of that request. -/
def RpcService.rpc (r : RpcService) (route : String) : PendingRpc × RpcService :=
  (⟨route, r.requests.length⟩, { r with requests := r.requests ++ [route] })

/-- Modelled from the spec: the host `Stormancer::Event<>` (declared in the host SDK, not in this
repository): an ordered list of subscriptions, each a handle with its callback. Subscribing
appends, disposing the handle removes the entry, raising the event runs the callbacks of the
entries present, in order. -/
structure Event (α : Type) where
  subscriptions : List (Nat × α)
  nextHandle : Nat

/-- An event without subscribers. -/
def Event.empty {α : Type} : Event α :=
  { subscriptions := [], nextHandle := 0 }

/-- Modelled from the spec: `Event::subscribe(callback)`, returning the subscription handle. -/
def Event.subscribe {α : Type} (e : Event α) (callback : α) : Nat × Event α :=
  (e.nextHandle,
    { subscriptions := e.subscriptions ++ [(e.nextHandle, callback)],
      nextHandle := e.nextHandle + 1 })

/-- Modelled from the spec: the disposal of a subscription handle, which unregisters its
callback. -/
def Event.unsubscribe {α : Type} (e : Event α) (h : Nat) : Event α :=
  { e with subscriptions := e.subscriptions.filter (fun s => s.1 ≠ h) }

/-- Releases the subscription a `Subscription` member holds, if it holds one. -/
def Event.release {α : Type} (e : Event α) : Option Nat → Event α
  | some h => e.unsubscribe h
  | none => e

/-- Modelled from the spec: `Event::operator()`, the subscriptions whose callbacks run, in
order. -/
def Event.raise {α : Type} (e : Event α) : List (Nat × α) :=
  e.subscriptions

end details

/-! ## `ServerPools` and `ServerPoolsService` -/

/-- An invocation of an application callback subscribed through
`ServerPools::subscribeShutdownReceived`: the subscription handle and the callback. -/
abbrev Invocation := Nat × String

/-- The class `ServerPools` (the client-side API object): the subscription it holds on the
service event, the status producer set by the application, and its own shutdown event, whose
callbacks are named by strings. -/
structure ServerPools where
  shutdownReceivedSubscription : Option Nat
  getStatusCallback : Option (Unit → Status)
  shutdownReceived : details.Event String

/-- A freshly constructed `ServerPools`. -/
def ServerPools.new : ServerPools :=
  { shutdownReceivedSubscription := none, getStatusCallback := none,
    shutdownReceived := details.Event.empty }

namespace details

/-- The class `details::ServerPoolsService`. A callback stored in it captures a weak pointer to
the `ServerPools` object, so it is a function of what that pointer locks to when it runs. -/
structure ServerPoolsService where
  getStatusCallback : Option (Option ServerPools → Status)
  shutdownReceived : Event (Option ServerPools → List Invocation)

/-- A freshly constructed `ServerPoolsService`. -/
def ServerPoolsService.new : ServerPoolsService :=
  { getStatusCallback := none, shutdownReceived := Event.empty }

/-- The method `ServerPoolsService::waitGameSession`, run against the RPC service its weak
pointer `_rpcService` refers to: the thrown exception or the returned task, and the RPC service
afterwards. -/
def ServerPoolsService.waitGameSession (_rpcService : RpcService) :
    Except Exception PendingRpc × RpcService :=
  match _rpcService.lock with
  | none => (Except.error (Exception.ObjectDeletedException "RpcService"), _rpcService)
  | some rpc =>
    let r := rpc.rpc "ServerPool.WaitGameSession"
    (Except.ok r.1, r.2)

/-- The method `ServerPoolsService::subscribeShutdownReceived`. -/
def ServerPoolsService.subscribeShutdownReceived (self : ServerPoolsService)
    (callback : Option ServerPools → List Invocation) : Nat × ServerPoolsService :=
  let r := self.shutdownReceived.subscribe callback
  (r.1, { self with shutdownReceived := r.2 })

/-- The handler `initialize` adds on the route `ServerPool.Shutdown`: `wService` is what the
captured weak pointer locks to, `wThis` what the weak pointers captured by the subscribed
callbacks lock to. The result lists the application callbacks invoked, in order. -/
def shutdownRoute (wService : Option ServerPoolsService) (wThis : Option ServerPools) :
    List Invocation :=
  match wService with
  | some service => (service.shutdownReceived.raise).flatMap (fun s => s.2 wThis)
  | none => []

/-- The host `RpcRequestContext`: the values sent in response so far, oldest first. -/
structure RpcRequestContext where
  sent : List Status
  deriving DecidableEq, Repr

/-- The call `ctx->sendValueTemplated(status)`. -/
def RpcRequestContext.sendValueTemplated (ctx : RpcRequestContext) (s : Status) :
    RpcRequestContext :=
  { ctx with sent := ctx.sent ++ [s] }

/-- How a run of the `ServerPool.GetStatus` procedure ends: it returns its completed task, or it
dereferences a null `service` pointer. -/
inductive Completion where
  | returned
  | nullDereference
  deriving DecidableEq, Repr

/-- The procedure `initialize` adds under `ServerPool.GetStatus`: the request context after the
run and how the run ended. -/
def getStatusProcedure (wService : Option ServerPoolsService) (ctx : RpcRequestContext) :
    RpcRequestContext × Completion :=
  let service := wService
  let ctx := if service.isNone then ctx.sendValueTemplated Status.Complete else ctx
  match service with
  | none => (ctx, Completion.nullDereference)
  | some service =>
    let ctx :=
      if service.getStatusCallback.isNone then ctx.sendValueTemplated Status.Unknown else ctx
    (ctx, Completion.returned)

end details

/-- The method `ServerPools::waitGameSession`, once `getService()` has produced the service. -/
def ServerPools.waitGameSession (_rpcService : details.RpcService) :
    Except details.Exception details.PendingRpc × details.RpcService :=
  details.ServerPoolsService.waitGameSession _rpcService

/-- The method `ServerPools::subscribeShutdownReceived`. -/
def ServerPools.subscribeShutdownReceived (self : ServerPools) (callback : String) :
    Nat × ServerPools :=
  let r := self.shutdownReceived.subscribe callback
  (r.1, { self with shutdownReceived := r.2 })

/-- The method `ServerPools::setGetStatusCallback`. -/
def ServerPools.setGetStatusCallback (self : ServerPools) (callback : Unit → Status) :
    ServerPools :=
  { self with getStatusCallback := some callback }

/-- The lambda `onConnecting` subscribes to the service shutdown event. -/
def forwardShutdown (wThis : Option ServerPools) : List Invocation :=
  match wThis with
  | some that => that.shutdownReceived.raise
  | none => []

/-- The lambda `onConnecting` stores in `service->getStatusCallback`. -/
def forwardGetStatus (wThis : Option ServerPools) : Status :=
  match wThis with
  | some that =>
    match that.getStatusCallback with
    | some callback => callback ()
    | none => Status.Unknown
  | none => Status.Unknown

/-- The method `ServerPools::onConnecting`: the new subscription is created, then assigned to
`shutdownReceivedSubscription`, which releases the one held before. -/
def ServerPools.onConnecting (self : ServerPools) (service : details.ServerPoolsService) :
    ServerPools × details.ServerPoolsService :=
  let r := service.subscribeShutdownReceived forwardShutdown
  let service := r.2
  let service :=
    { service with
      shutdownReceived := service.shutdownReceived.release self.shutdownReceivedSubscription }
  let self := { self with shutdownReceivedSubscription := some r.1 }
  let service := { service with getStatusCallback := some forwardGetStatus }
  (self, service)

/-- The method `ServerPools::onDisconnecting`. -/
def ServerPools.onDisconnecting (self : ServerPools) (service : details.ServerPoolsService) :
    ServerPools × details.ServerPoolsService :=
  let service :=
    { service with
      shutdownReceived := service.shutdownReceived.release self.shutdownReceivedSubscription }
  ({ self with shutdownReceivedSubscription := none }, service)

/-! ## The agent as a state machine -/

/-- The two objects of a server agent on its scene, both alive: the `ServerPools` API object and
the scene's `ServerPoolsService`. -/
structure Agent where
  pools : ServerPools
  service : details.ServerPoolsService

/-- The agent once `sceneCreated` has resolved and initialized the service: nothing subscribed,
no status producer. -/
def Agent.created : Agent :=
  { pools := ServerPools.new, service := details.ServerPoolsService.new }

/-- What the application and the plugin hooks do to a live agent. -/
inductive Action where
  | subscribeShutdownReceived (callback : String)
  | dispose (handle : Nat)
  | setGetStatusCallback (callback : Unit → Status)
  | sceneConnecting
  | sceneDisconnecting

/-- One action on the agent. Disposing a handle returned by
`ServerPools::subscribeShutdownReceived` unsubscribes it from `ServerPools::shutdownReceived`;
`sceneConnecting` and `sceneDisconnecting` are the plugin hooks, which call `onConnecting` and
`onDisconnecting`. -/
def Agent.step (a : Agent) : Action → Agent
  | Action.subscribeShutdownReceived callback =>
    { a with pools := (a.pools.subscribeShutdownReceived callback).2 }
  | Action.dispose handle =>
    { a with pools := { a.pools with shutdownReceived := a.pools.shutdownReceived.unsubscribe handle } }
  | Action.setGetStatusCallback callback =>
    { a with pools := a.pools.setGetStatusCallback callback }
  | Action.sceneConnecting =>
    let r := a.pools.onConnecting a.service
    { pools := r.1, service := r.2 }
  | Action.sceneDisconnecting =>
    let r := a.pools.onDisconnecting a.service
    { pools := r.1, service := r.2 }

/-- A sequence of actions on the agent, oldest first. -/
def Agent.run (a : Agent) (actions : List Action) : Agent :=
  actions.foldl Agent.step a

/-- The `ServerPool.Shutdown` route handler run on a live agent. -/
def Agent.shutdown (a : Agent) : List Invocation :=
  details.shutdownRoute (some a.service) (some a.pools)

/-- The `ServerPool.GetStatus` procedure run on a live agent with a fresh request context: the
responses sent. -/
def Agent.getStatus (a : Agent) : List Status :=
  (details.getStatusProcedure (some a.service) ⟨[]⟩).1.sent

/-- Whether the last of the two scene hooks in the sequence, if any, is `sceneConnecting`: the
agent is connected. -/
def connectedAfter (actions : List Action) : Bool :=
  actions.foldl
    (fun b act =>
      match act with
      | Action.sceneConnecting => true
      | Action.sceneDisconnecting => false
      | _ => b)
    false

/-- Whether the sequence disposes the given subscription handle. -/
def disposes (handle : Nat) (actions : List Action) : Bool :=
  actions.any
    (fun act =>
      match act with
      | Action.dispose h => h = handle
      | _ => false)

/-- The invocations in a trace made under the given subscription handle. -/
def invocationsOf (handle : Nat) (trace : List Invocation) : List Invocation :=
  trace.filter (fun i => i.1 = handle)

/-- The wiring `onConnecting` and `onDisconnecting` maintain between the two objects: the
service event holds exactly the forwarding subscription the `ServerPools` object holds, if it
holds one, and nothing otherwise. -/
def Agent.Wired (a : Agent) : Prop :=
  match a.pools.shutdownReceivedSubscription with
  | some h =>
    a.service.shutdownReceived.subscriptions = [(h, forwardShutdown)] ∧
      h < a.service.shutdownReceived.nextHandle
  | none => a.service.shutdownReceived.subscriptions = []

/-- Every handle subscribed to the event was issued by it. -/
def details.Event.Issued {α : Type} (e : details.Event α) : Prop :=
  ∀ s ∈ e.subscriptions, s.1 < e.nextHandle

/-! ## Sample inputs -/

/-- A configuration that opts in through `additionalHeaders`, bound to port 7777. -/
def optedInConfiguration : Configuration :=
  { additionalHeaders := [(ConfigurationKeys.GetParametersFromEnv, "true")],
    additionalParameters := [],
    serverEndpoints := ["cluster.example:80"],
    port := 7777,
    publishedAddresses := [],
    publishedPort := 0,
    enableNatPunchthrough := true }

/-- A configuration that carries the opt-in key in `additionalParameters` only. -/
def parametersOnlyConfiguration : Configuration :=
  { optedInConfiguration with
    additionalHeaders := [],
    additionalParameters := [(ConfigurationKeys.GetParametersFromEnv, "true")] }

/-- An environment in which no variable is set. -/
def emptyEnvironment : Environment := fun _ => none

/-- An environment in which only `Stormancer.Server.Port` is set. -/
def portEnvironment (value : String) : Environment :=
  fun name => if name = "Stormancer.Server.Port" then some value else none

/-- An environment with a bind port and a published address list, without a published port. -/
def publishedEnvironment : Environment :=
  fun name =>
    if name = "Stormancer.Server.Port" then some "9000"
    else if name = "Stormancer.Server.PublishedAddresses" then some "10.0.0.1,10.0.0.2"
    else none

/-- An environment with a published address list and a published port that is no number. -/
def badPublishedPortEnvironment : Environment :=
  fun name =>
    if name = "Stormancer.Server.PublishedAddresses" then some "10.0.0.1"
    else if name = "Stormancer.Server.PublishedPort" then some "http"
    else none

/-- An environment that sets a port and an authentication token. -/
def tokenEnvironment : Environment :=
  fun name =>
    if name = "Stormancer.Server.Port" then some "9000"
    else if name = "Stormancer.Server.AuthenticationToken" then some "secret"
    else none

end ServerPools

/-! ## Lemmas on the host types and C functions -/

theorem StringMap.find_assign (m : StringMap) (k v : String) :
    (StringMap.assign m k v).find k = some v := by
  induction m with
  | nil => simp [StringMap.assign, StringMap.find, List.lookup]
  | cons kv m ih =>
    obtain ⟨k', v'⟩ := kv
    unfold StringMap.assign
    by_cases h : k' = k
    · simp [h, StringMap.find, List.lookup]
    · have h' : (k == k') = false := by
        simp only [beq_eq_false_iff_ne, ne_eq]
        exact fun e => h e.symm
      simp only [h, if_false]
      unfold StringMap.find at ih ⊢
      simp only [List.lookup, h']
      exact ih

theorem string_length_pos_iff (s : String) : s.length > 0 ↔ s ≠ "" := by
  constructor
  · intro h e
    subst e
    simp at h
  · intro h
    rcases Nat.eq_zero_or_pos s.length with h0 | h0
    · exfalso
      apply h
      apply String.ext
      exact List.length_eq_zero.mp h0
    · exact h0

theorem getlineAll_samples :
    getlineAll ',' "a,b,,c,".toList = ["a", "b", "", "c"] ∧
    getlineAll ',' ",".toList = [""] ∧
    getlineAll ',' "".toList = [] ∧
    getlineAll ',' "10.0.0.1".toList = ["10.0.0.1"] := by
  decide

theorem atoi_samples :
    atoi "9000" = 9000 ∧ atoi "  -12ab" = -12 ∧ atoi "+7" = 7 ∧ atoi "abc" = 0 ∧
    atoi "" = 0 ∧ atoi "- 5" = 0 := by
  decide

theorem digitsValue_of_not_digit (acc : Nat) (c : Char) (cs : List Char)
    (h : isdigit c = false) : digitsValue acc (c :: cs) = acc := by
  simp [digitsValue, h]

theorem atoi_of_noLeadingInteger (s : String) (h : noLeadingInteger s = true) : atoi s = 0 := by
  unfold noLeadingInteger at h
  unfold atoi
  cases hs : skipSpace s.toList with
  | nil => rfl
  | cons c cs =>
    rw [hs] at h
    simp only at h ⊢
    by_cases hm : c = '-'
    · subst hm
      simp only [true_or, if_true] at h
      cases cs with
      | nil => simp [digitsValue]
      | cons d ds =>
        simp only [Bool.not_eq_true'] at h
        simp [digitsValue, h]
    · by_cases hp : c = '+'
      · subst hp
        simp only [or_true, if_true] at h
        cases cs with
        | nil => simp [digitsValue]
        | cons d ds =>
          simp only [Bool.not_eq_true'] at h
          simp [digitsValue, h]
      · simp only [hm, hp, or_self, if_false, Bool.not_eq_true'] at h
        simp [hm, hp, digitsValue, h]

namespace ServerPools
namespace details

theorem foldl_addServerEndpoint (l : List String) (c : Configuration) :
    l.foldl (fun c s => c.addServerEndpoint s) c =
      { c with serverEndpoints := c.serverEndpoints ++ l } := by
  induction l generalizing c with
  | nil => simp
  | cons a l ih =>
    rw [List.foldl_cons, ih]
    simp [Configuration.addServerEndpoint]

theorem foldl_publishedAddresses (l : List String) (c : Configuration) :
    l.foldl (fun c s => { c with publishedAddresses := c.publishedAddresses ++ [s] }) c =
      { c with publishedAddresses := c.publishedAddresses ++ l } := by
  induction l generalizing c with
  | nil => simp
  | cons a l ih =>
    rw [List.foldl_cons, ih]
    simp

theorem applyClusterEndpoints_port (getenv : Environment) (c : Configuration) :
    (applyClusterEndpoints getenv c).port = c.port := by
  unfold applyClusterEndpoints
  cases getenv "Stormancer.Server.ClusterEndpoints" with
  | none => rfl
  | some v => simp [foldl_addServerEndpoint, Configuration.clearServerEndpoints]

theorem applyConfig_of_optIn (toPort : Int → Int) (getenv : Environment)
    (self : ServerPoolConfiguration)
    (h : self._config.additionalHeaders.find ConfigurationKeys.GetParametersFromEnv
      = some "true") :
    (self.applyConfig toPort getenv)._config =
      applyPublished toPort getenv (applyPort toPort getenv
        (applyClusterEndpoints getenv self._config)) := by
  unfold ServerPoolConfiguration.applyConfig
  simp only [h, decide_True, if_true]
  cases getenv "Stormancer.Server.AuthenticationToken" <;> rfl

theorem applyConfig_of_optOut (toPort : Int → Int) (getenv : Environment)
    (self : ServerPoolConfiguration)
    (h : self._config.additionalHeaders.find ConfigurationKeys.GetParametersFromEnv
      ≠ some "true") :
    self.applyConfig toPort getenv = { self with getConfigFromEnvironmentVariables := false } := by
  unfold ServerPoolConfiguration.applyConfig
  simp [h]

/-! ## The credential selector -/

/-- C1: for every handler whose configured auth token is not empty and every credentials context,
`retrieveCredentials` sets the credentials type to `gameServer` and `parameters["token"]` to that
token; for the empty (never set) token it sets the type to `gameServer.dev`. -/
theorem retrieveCredentials_selects (self : ServerAuthenticationHandler)
    (ctx : CredentialsContext) :
    (self._config.authToken ≠ "" →
      (self.retrieveCredentials ctx).1.authParameters.type = "gameServer" ∧
      (self.retrieveCredentials ctx).1.authParameters.parameters.find "token"
        = some self._config.authToken) ∧
    (self._config.authToken = "" →
      (self.retrieveCredentials ctx).1.authParameters.type = "gameServer.dev") := by
  constructor
  · intro h
    have hpos : self._config.authToken.length > 0 := (string_length_pos_iff _).mpr h
    unfold ServerAuthenticationHandler.retrieveCredentials
    rw [if_pos hpos]
    exact ⟨rfl, StringMap.find_assign _ _ _⟩
  · intro h
    unfold ServerAuthenticationHandler.retrieveCredentials
    simp [h]

/-- C1 at a handler configured with the token `secret` and at one created without a token, on a
context that asks for another credentials type. -/
theorem retrieveCredentials_selects_witness :
    ((ServerAuthenticationHandler.mk
        { ServerPoolConfiguration.new optedInConfiguration with authToken := "secret" }
        []).retrieveCredentials ⟨⟨"deviceidentifier", [("token", "old")]⟩⟩).1.authParameters.type
      = "gameServer" ∧
    ((ServerAuthenticationHandler.mk
        { ServerPoolConfiguration.new optedInConfiguration with authToken := "secret" }
        []).retrieveCredentials
          ⟨⟨"deviceidentifier", [("token", "old")]⟩⟩).1.authParameters.parameters.find "token"
      = some "secret" ∧
    ((ServerAuthenticationHandler.mk (ServerPoolConfiguration.new optedInConfiguration)
        []).retrieveCredentials ⟨⟨"deviceidentifier", []⟩⟩).1.authParameters.type
      = "gameServer.dev" := by
  have h1 := (retrieveCredentials_selects
    (ServerAuthenticationHandler.mk
      { ServerPoolConfiguration.new optedInConfiguration with authToken := "secret" } [])
    ⟨⟨"deviceidentifier", [("token", "old")]⟩⟩).1 (by decide)
  have h2 := (retrieveCredentials_selects
    (ServerAuthenticationHandler.mk (ServerPoolConfiguration.new optedInConfiguration) [])
    ⟨⟨"deviceidentifier", []⟩⟩).2 rfl
  exact ⟨h1.1, h1.2, h2⟩

/-! ## The environment loader -/

/-- C2: when the opt-in key is absent from the map `applyConfig` reads, or its value is not
`true`, then for every environment `applyConfig` leaves the whole host configuration (server
endpoints, port, published addresses, published port, NAT punch-through flag) and the auth token
as they were, with the flag `false`; on the freshly constructed object the auth token stays
empty. -/
theorem applyConfig_optOut_unchanged (toPort : Int → Int) (getenv : Environment)
    (self : ServerPoolConfiguration)
    (h : self._config.additionalHeaders.find ConfigurationKeys.GetParametersFromEnv
      ≠ some "true") :
    (self.applyConfig toPort getenv)._config = self._config ∧
    (self.applyConfig toPort getenv).authToken = self.authToken ∧
    (self.applyConfig toPort getenv).getConfigFromEnvironmentVariables = false ∧
    ((ServerPoolConfiguration.new self._config).applyConfig toPort getenv).authToken = "" := by
  have h1 := applyConfig_of_optOut toPort getenv self h
  have h2 := applyConfig_of_optOut toPort getenv (ServerPoolConfiguration.new self._config) h
  rw [h1, h2]
  exact ⟨rfl, rfl, rfl, rfl⟩

/-- C2 at a configuration without the key in `additionalHeaders`, in an environment that sets a
port and a token. -/
theorem applyConfig_optOut_unchanged_witness :
    ((ServerPoolConfiguration.new parametersOnlyConfiguration).applyConfig toUInt16
        tokenEnvironment)._config = parametersOnlyConfiguration ∧
    ((ServerPoolConfiguration.new parametersOnlyConfiguration).applyConfig toUInt16
        tokenEnvironment).authToken = "" :=
  have h := applyConfig_optOut_unchanged toUInt16 tokenEnvironment
    (ServerPoolConfiguration.new parametersOnlyConfiguration) (by decide)
  ⟨h.1, h.2.1⟩

/-- C5: with the opt-in enabled, `Stormancer.Server.PublishedAddresses` set and
`Stormancer.Server.PublishedPort` not set, after `applyConfig` the published port equals the bind
port as it stands once `Stormancer.Server.Port`, if set, has been applied, and NAT punch-through
is disabled. -/
theorem applyConfig_publishedPort_defaults (toPort : Int → Int) (getenv : Environment)
    (self : ServerPoolConfiguration) (addresses : String)
    (hflag : self._config.additionalHeaders.find ConfigurationKeys.GetParametersFromEnv
      = some "true")
    (haddr : getenv "Stormancer.Server.PublishedAddresses" = some addresses)
    (hport : getenv "Stormancer.Server.PublishedPort" = none) :
    (self.applyConfig toPort getenv)._config.publishedPort
      = (self.applyConfig toPort getenv)._config.port ∧
    (self.applyConfig toPort getenv)._config.port
      = (match getenv "Stormancer.Server.Port" with
        | some port => toPort (atoi port)
        | none => self._config.port) ∧
    (self.applyConfig toPort getenv)._config.enableNatPunchthrough = false := by
  rw [applyConfig_of_optIn toPort getenv self hflag]
  have hpub : ∀ c, applyPublished toPort getenv c =
      { c with enableNatPunchthrough := false,
               publishedAddresses := c.publishedAddresses ++ getlineAll ',' addresses.toList,
               publishedPort := c.port } := by
    intro c
    unfold applyPublished
    rw [haddr, hport]
    simp only [foldl_publishedAddresses]
  rw [hpub]
  refine ⟨rfl, ?_, rfl⟩
  show (applyPort toPort getenv (applyClusterEndpoints getenv self._config)).port = _
  unfold applyPort
  cases getenv "Stormancer.Server.Port" with
  | none => exact applyClusterEndpoints_port getenv self._config
  | some v => rfl

/-- C5 at a configuration bound to 7777 in an environment that sets the port to 9000 and two
published addresses. -/
theorem applyConfig_publishedPort_defaults_witness :
    ((ServerPoolConfiguration.new optedInConfiguration).applyConfig toUInt16
        publishedEnvironment)._config.publishedPort
      = ((ServerPoolConfiguration.new optedInConfiguration).applyConfig toUInt16
        publishedEnvironment)._config.port ∧
    ((ServerPoolConfiguration.new optedInConfiguration).applyConfig toUInt16
        publishedEnvironment)._config.enableNatPunchthrough = false :=
  have h := applyConfig_publishedPort_defaults toUInt16 publishedEnvironment
    (ServerPoolConfiguration.new optedInConfiguration) "10.0.0.1,10.0.0.2"
    (by decide) (by decide) (by decide)
  ⟨h.1, h.2.2⟩

/-- C8, as stated, fails: with `Stormancer.Server.Port` set to `abc` the loader does not produce
the configuration it produces when the variable is not set; the port 7777 is replaced by 0. -/
theorem applyConfig_malformed_port_overwrites :
    (ServerPoolConfiguration.new optedInConfiguration).applyConfig toUInt16
        (portEnvironment "abc")
      ≠ (ServerPoolConfiguration.new optedInConfiguration).applyConfig toUInt16
        emptyEnvironment ∧
    ((ServerPoolConfiguration.new optedInConfiguration).applyConfig toUInt16
        (portEnvironment "abc"))._config.port = 0 ∧
    ((ServerPoolConfiguration.new optedInConfiguration).applyConfig toUInt16
        emptyEnvironment)._config.port = 7777 := by
  decide

/-- C8, amended: with the opt-in enabled, a port variable that is not set leaves the bind port
as configured, while `Stormancer.Server.Port` set to a value that does not start with a decimal
integer stores the result of `atoi`, zero, in the bind port, and, when
`Stormancer.Server.PublishedAddresses` is set, `Stormancer.Server.PublishedPort` set to such a
value stores zero in the published port. -/
theorem applyConfig_port_from_atoi (toPort : Int → Int) (getenv : Environment)
    (self : ServerPoolConfiguration)
    (hflag : self._config.additionalHeaders.find ConfigurationKeys.GetParametersFromEnv
      = some "true") :
    (getenv "Stormancer.Server.Port" = none →
      (self.applyConfig toPort getenv)._config.port = self._config.port) ∧
    (∀ value, getenv "Stormancer.Server.Port" = some value → noLeadingInteger value = true →
      (self.applyConfig toPort getenv)._config.port = toPort 0) ∧
    (∀ addresses value, getenv "Stormancer.Server.PublishedAddresses" = some addresses →
      getenv "Stormancer.Server.PublishedPort" = some value → noLeadingInteger value = true →
      (self.applyConfig toPort getenv)._config.publishedPort = toPort 0) := by
  rw [applyConfig_of_optIn toPort getenv self hflag]
  refine ⟨?_, ?_, ?_⟩
  · intro hp
    have hpub : ∀ c, (applyPublished toPort getenv c).port = c.port := by
      intro c
      unfold applyPublished
      cases getenv "Stormancer.Server.PublishedAddresses" with
      | none => rfl
      | some a =>
        simp only [foldl_publishedAddresses]
        cases getenv "Stormancer.Server.PublishedPort" <;> rfl
    rw [hpub]
    unfold applyPort
    simp only [hp]
    exact applyClusterEndpoints_port getenv self._config
  · intro value hv hbad
    have hpub : ∀ c, (applyPublished toPort getenv c).port = c.port := by
      intro c
      unfold applyPublished
      cases getenv "Stormancer.Server.PublishedAddresses" with
      | none => rfl
      | some a =>
        simp only [foldl_publishedAddresses]
        cases getenv "Stormancer.Server.PublishedPort" <;> rfl
    rw [hpub]
    unfold applyPort
    simp only [hv, atoi_of_noLeadingInteger value hbad]
  · intro addresses value ha hv hbad
    unfold applyPublished
    simp only [ha, hv, foldl_publishedAddresses, atoi_of_noLeadingInteger value hbad]

/-- C8, amended, at a configuration bound to 7777: the port value `abc` leaves port 0, and the
published port value `http` leaves published port 0. -/
theorem applyConfig_port_from_atoi_witness :
    ((ServerPoolConfiguration.new optedInConfiguration).applyConfig toUInt16
        (portEnvironment "abc"))._config.port = toUInt16 0 ∧
    ((ServerPoolConfiguration.new optedInConfiguration).applyConfig toUInt16
        badPublishedPortEnvironment)._config.publishedPort = toUInt16 0 :=
  ⟨(applyConfig_port_from_atoi toUInt16 (portEnvironment "abc")
      (ServerPoolConfiguration.new optedInConfiguration) (by decide)).2.1 "abc"
      (by decide) (by decide),
   (applyConfig_port_from_atoi toUInt16 badPublishedPortEnvironment
      (ServerPoolConfiguration.new optedInConfiguration) (by decide)).2.2 "10.0.0.1" "http"
      (by decide) (by decide) (by decide)⟩

/-- C10: on a configuration whose `additionalParameters` map holds the opt-in key with the value
`true` (and whose `additionalHeaders` map does not), in an environment that sets a port and a
token, `applyConfig` leaves the flag `false` and applies nothing: the loader reads
`additionalHeaders`. -/
theorem applyConfig_ignores_additionalParameters :
    parametersOnlyConfiguration.additionalParameters.find ConfigurationKeys.GetParametersFromEnv
      = some "true" ∧
    ((ServerPoolConfiguration.new parametersOnlyConfiguration).applyConfig toUInt16
        tokenEnvironment).getConfigFromEnvironmentVariables = false ∧
    ((ServerPoolConfiguration.new parametersOnlyConfiguration).applyConfig toUInt16
        tokenEnvironment)._config.port = 7777 ∧
    ((ServerPoolConfiguration.new parametersOnlyConfiguration).applyConfig toUInt16
        tokenEnvironment).authToken = "" := by
  decide

/-! ## The game-session wait -/

/-- C6: `waitGameSession` throws `ObjectDeletedException("RpcService")` exactly when the RPC
service is destroyed, and then no request has been issued; otherwise it issues exactly one
request, on the route `ServerPool.WaitGameSession`, and returns the pending result of that
request. -/
theorem waitGameSession_channel_gone (rpc : RpcService) :
    ((ServerPoolsService.waitGameSession rpc).1
        = Except.error (Exception.ObjectDeletedException "RpcService") ↔ rpc.alive = false) ∧
    (rpc.alive = false → (ServerPoolsService.waitGameSession rpc).2 = rpc) ∧
    (rpc.alive = true →
      (ServerPoolsService.waitGameSession rpc).1
        = Except.ok ⟨"ServerPool.WaitGameSession", rpc.requests.length⟩ ∧
      (ServerPoolsService.waitGameSession rpc).2.requests
        = rpc.requests ++ ["ServerPool.WaitGameSession"] ∧
      (ServerPoolsService.waitGameSession rpc).2.alive = true) := by
  unfold ServerPoolsService.waitGameSession RpcService.lock
  cases h : rpc.alive <;> simp [RpcService.rpc, h]

/-- C6 at a destroyed RPC service that had issued one request, and at a live one. -/
theorem waitGameSession_channel_gone_witness :
    ServerPoolsService.waitGameSession ⟨false, ["Other.Route"]⟩
      = (Except.error (Exception.ObjectDeletedException "RpcService"),
          ⟨false, ["Other.Route"]⟩) ∧
    (ServerPoolsService.waitGameSession ⟨true, ["Other.Route"]⟩).1
      = Except.ok ⟨"ServerPool.WaitGameSession", 1⟩ ∧
    (ServerPoolsService.waitGameSession ⟨true, ["Other.Route"]⟩).2.requests
      = ["Other.Route", "ServerPool.WaitGameSession"] := by
  have h0 := waitGameSession_channel_gone ⟨false, ["Other.Route"]⟩
  have h1 := waitGameSession_channel_gone ⟨true, ["Other.Route"]⟩
  refine ⟨?_, (h1.2.2 rfl).1, (h1.2.2 rfl).2.1⟩
  exact Prod.ext (h0.1.mpr rfl) (h0.2.1 rfl)

end details

/-! ## The status and shutdown responder -/

theorem getStatusProcedure_of_callback (service : details.ServerPoolsService)
    (callback : Option ServerPools → Status) (ctx : details.RpcRequestContext)
    (h : service.getStatusCallback = some callback) :
    details.getStatusProcedure (some service) ctx = (ctx, details.Completion.returned) := by
  simp [details.getStatusProcedure, h]

theorem onConnecting_getStatusCallback (pools : ServerPools)
    (service : details.ServerPoolsService) :
    (pools.onConnecting service).2.getStatusCallback = some forwardGetStatus := rfl

theorem Agent.getStatusCallback_step (a : Agent) (act : Action)
    (h : a.service.getStatusCallback.isSome = true) :
    (a.step act).service.getStatusCallback.isSome = true := by
  cases act <;> simp [Agent.step, ServerPools.onConnecting, ServerPools.onDisconnecting, h]

theorem Agent.getStatusCallback_run (actions : List Action) (a : Agent)
    (h : a.service.getStatusCallback.isSome = true) :
    (a.run actions).service.getStatusCallback.isSome = true := by
  induction actions generalizing a with
  | nil => exact h
  | cons act rest ih =>
    simp only [Agent.run, List.foldl_cons]
    exact ih (a.step act) (Agent.getStatusCallback_step a act h)

theorem Agent.getStatus_after_connecting (actions : List Action) (a : Agent)
    (h : Action.sceneConnecting ∈ actions) : (a.run actions).getStatus = [] := by
  have hset : (a.run actions).service.getStatusCallback.isSome = true := by
    induction actions generalizing a with
    | nil => simp at h
    | cons act rest ih =>
      simp only [Agent.run, List.foldl_cons]
      rcases List.mem_cons.mp h with h | h
      · subst h
        exact Agent.getStatusCallback_run rest _ rfl
      · exact ih (a.step act) h
  obtain ⟨callback, hcb⟩ := Option.isSome_iff_exists.mp hset
  unfold Agent.getStatus
  rw [getStatusProcedure_of_callback _ callback _ hcb]

/-- C3: with the producer `Ready` registered through `setGetStatusCallback` and the scene
connected, the `ServerPool.GetStatus` procedure returns without sending any response, although
the callback `onConnecting` stored in the service would answer `Ready`; with the producer
registered before the scene connects, the procedure answers `Unknown`. -/
theorem getStatus_registered_producer_unanswered :
    (Agent.run Agent.created
        [Action.setGetStatusCallback (fun _ => Status.Ready), Action.sceneConnecting]).getStatus
      = [] ∧
    forwardGetStatus (some (Agent.run Agent.created
        [Action.setGetStatusCallback (fun _ => Status.Ready), Action.sceneConnecting]).pools)
      = Status.Ready ∧
    (Agent.run Agent.created
        [Action.setGetStatusCallback (fun _ => Status.Ready)]).getStatus
      = [Status.Unknown] := by
  decide

/-- C4: without any producer registered, the `ServerPool.GetStatus` procedure answers `Unknown`
once before the scene connects, and sends no response at all after `onConnecting` has run. -/
theorem getStatus_unregistered_after_connecting_unanswered :
    Agent.created.getStatus = [Status.Unknown] ∧
    (Agent.run Agent.created [Action.sceneConnecting]).getStatus = [] ∧
    forwardGetStatus (some (Agent.run Agent.created [Action.sceneConnecting]).pools)
      = Status.Unknown := by
  decide

/-- C9, as stated, fails: run after the service has been destroyed, the `ServerPool.GetStatus`
procedure sends a response, `Complete`. -/
theorem getStatusProcedure_destroyed_sends :
    (details.getStatusProcedure none ⟨[]⟩).1.sent ≠ [] ∧
    (details.getStatusProcedure none ⟨[]⟩).1.sent = [Status.Complete] := by
  decide

/-- C9, amended: after the service has been destroyed the `ServerPool.Shutdown` route handler
invokes no callback, whatever the `ServerPools` object holds, and the `ServerPool.GetStatus`
procedure sends one response, `Complete`. -/
theorem destroyed_service_handlers (wThis : Option ServerPools)
    (ctx : details.RpcRequestContext) :
    details.shutdownRoute none wThis = [] ∧
    (details.getStatusProcedure none ctx).1.sent = ctx.sent ++ [Status.Complete] := by
  exact ⟨rfl, rfl⟩

theorem Agent.wired_created : Agent.created.Wired := by
  simp [Agent.Wired, Agent.created, ServerPools.new, details.ServerPoolsService.new,
    details.Event.empty]

theorem Agent.wired_step (a : Agent) (act : Action) (h : a.Wired) : (a.step act).Wired := by
  unfold Agent.Wired at h ⊢
  cases act with
  | subscribeShutdownReceived callback => exact h
  | dispose handle => exact h
  | setGetStatusCallback callback => exact h
  | sceneConnecting =>
    simp only [Agent.step, ServerPools.onConnecting,
      details.ServerPoolsService.subscribeShutdownReceived, details.Event.subscribe]
    cases hs : a.pools.shutdownReceivedSubscription with
    | none =>
      rw [hs] at h
      simp only at h
      simp [details.Event.release, h]
    | some k =>
      rw [hs] at h
      simp only at h
      have hne : a.service.shutdownReceived.nextHandle ≠ k := Nat.ne_of_gt h.2
      simp [details.Event.release, details.Event.unsubscribe, h.1, hne]
  | sceneDisconnecting =>
    simp only [Agent.step, ServerPools.onDisconnecting]
    cases hs : a.pools.shutdownReceivedSubscription with
    | none =>
      rw [hs] at h
      simp only at h
      simp [details.Event.release, h]
    | some k =>
      rw [hs] at h
      simp only at h
      simp [details.Event.release, details.Event.unsubscribe, h.1]

theorem Agent.connected_step (a : Agent) (act : Action) (b : Bool)
    (h : b = a.pools.shutdownReceivedSubscription.isSome) :
    (match act with
      | Action.sceneConnecting => true
      | Action.sceneDisconnecting => false
      | _ => b) = (a.step act).pools.shutdownReceivedSubscription.isSome := by
  cases act <;> simp [Agent.step, h, ServerPools.onConnecting, ServerPools.onDisconnecting,
    ServerPools.subscribeShutdownReceived, ServerPools.setGetStatusCallback]

theorem Agent.wired_run (actions : List Action) (a : Agent) (b : Bool) (h : a.Wired)
    (hb : b = a.pools.shutdownReceivedSubscription.isSome) :
    (a.run actions).Wired ∧
    actions.foldl
      (fun b act =>
        match act with
        | Action.sceneConnecting => true
        | Action.sceneDisconnecting => false
        | _ => b)
      b = (a.run actions).pools.shutdownReceivedSubscription.isSome := by
  induction actions generalizing a b with
  | nil => exact ⟨h, hb⟩
  | cons act rest ih =>
    simp only [Agent.run, List.foldl_cons]
    exact ih (a.step act) _ (Agent.wired_step a act h) (Agent.connected_step a act b hb)

theorem Agent.shutdown_of_wired (a : Agent) (h : a.Wired)
    (hc : a.pools.shutdownReceivedSubscription.isSome = true) :
    a.shutdown = a.pools.shutdownReceived.subscriptions := by
  unfold Agent.Wired at h
  cases hs : a.pools.shutdownReceivedSubscription with
  | none => simp [hs] at hc
  | some k =>
    rw [hs] at h
    simp only at h
    simp [Agent.shutdown, details.shutdownRoute, details.Event.raise, h.1, forwardShutdown]

theorem Agent.issued_step (a : Agent) (act : Action) (h : a.pools.shutdownReceived.Issued) :
    (a.step act).pools.shutdownReceived.Issued ∧
    a.pools.shutdownReceived.nextHandle ≤ (a.step act).pools.shutdownReceived.nextHandle := by
  unfold details.Event.Issued at h ⊢
  cases act with
  | subscribeShutdownReceived callback =>
    simp only [Agent.step, ServerPools.subscribeShutdownReceived, details.Event.subscribe]
    refine ⟨?_, Nat.le_succ _⟩
    intro s hs
    rcases List.mem_append.mp hs with hs | hs
    · exact Nat.lt_succ_of_lt (h s hs)
    · rw [List.mem_singleton.mp hs]
      exact Nat.lt_succ_self _
  | dispose handle =>
    simp only [Agent.step, details.Event.unsubscribe]
    exact ⟨fun s hs => h s (List.mem_filter.mp hs).1, Nat.le_refl _⟩
  | setGetStatusCallback callback => exact ⟨h, Nat.le_refl _⟩
  | sceneConnecting => exact ⟨h, Nat.le_refl _⟩
  | sceneDisconnecting => exact ⟨h, Nat.le_refl _⟩

theorem Agent.issued_run (actions : List Action) (a : Agent)
    (h : a.pools.shutdownReceived.Issued) : (a.run actions).pools.shutdownReceived.Issued := by
  induction actions generalizing a with
  | nil => exact h
  | cons act rest ih =>
    simp only [Agent.run, List.foldl_cons]
    exact ih (a.step act) (Agent.issued_step a act h).1

theorem invocationsOf_of_issued (e : details.Event String) (h : e.Issued) :
    invocationsOf e.nextHandle e.subscriptions = [] := by
  unfold invocationsOf
  rw [List.filter_eq_nil_iff]
  intro s hs
  have := h s hs
  simp only [decide_eq_true_eq]
  omega

theorem Agent.invocationsOf_step (a : Agent) (act : Action) (handle : Nat)
    (h : handle < a.pools.shutdownReceived.nextHandle) :
    handle < (a.step act).pools.shutdownReceived.nextHandle ∧
    invocationsOf handle (a.step act).pools.shutdownReceived.subscriptions =
      if disposes handle [act] then []
      else invocationsOf handle a.pools.shutdownReceived.subscriptions := by
  cases act with
  | subscribeShutdownReceived callback =>
    simp only [Agent.step, ServerPools.subscribeShutdownReceived, details.Event.subscribe,
      invocationsOf, disposes, List.any_cons, List.any_nil, Bool.or_false]
    refine ⟨Nat.lt_succ_of_lt h, ?_⟩
    have hne : ¬ a.pools.shutdownReceived.nextHandle = handle := by omega
    simp [List.filter_append, hne]
  | dispose k =>
    simp only [Agent.step, details.Event.unsubscribe, invocationsOf, disposes, List.any_cons,
      List.any_nil, Bool.or_false, List.filter_filter]
    refine ⟨h, ?_⟩
    by_cases hk : k = handle
    · subst hk
      simp
    · simp only [hk, decide_False]
      apply List.filter_congr
      intro s _
      have hk' : ¬ handle = k := fun e => hk e.symm
      by_cases hs : s.1 = handle
      · simp [hs, hk']
      · simp [hs]
  | setGetStatusCallback callback =>
    exact ⟨h, by simp [Agent.step, ServerPools.setGetStatusCallback, disposes]⟩
  | sceneConnecting =>
    exact ⟨h, by simp [Agent.step, ServerPools.onConnecting, disposes]⟩
  | sceneDisconnecting =>
    exact ⟨h, by simp [Agent.step, ServerPools.onDisconnecting, disposes]⟩

theorem disposes_cons (handle : Nat) (act : Action) (rest : List Action) :
    disposes handle (act :: rest) = (disposes handle [act] || disposes handle rest) := by
  simp [disposes]

theorem Agent.invocationsOf_run (actions : List Action) (a : Agent) (handle : Nat)
    (h : handle < a.pools.shutdownReceived.nextHandle) :
    invocationsOf handle (a.run actions).pools.shutdownReceived.subscriptions =
      if disposes handle actions then []
      else invocationsOf handle a.pools.shutdownReceived.subscriptions := by
  induction actions generalizing a with
  | nil => simp [Agent.run, disposes]
  | cons act rest ih =>
    have hstep := Agent.invocationsOf_step a act handle h
    have hrest := ih (a.step act) hstep.1
    simp only [Agent.run, List.foldl_cons] at hrest ⊢
    rw [hrest, hstep.2, disposes_cons handle act rest]
    cases disposes handle [act] <;> cases disposes handle rest <;> simp

theorem Agent.run_append (a : Agent) (xs ys : List Action) :
    a.run (xs ++ ys) = (a.run xs).run ys := by
  simp [Agent.run, List.foldl_append]

/-- C7: on a connected agent (the last scene hook that ran is `onConnecting`), for every callback
subscribed through `ServerPools::subscribeShutdownReceived`, whatever the application and the
hooks did before and after the subscription, a `ServerPool.Shutdown` event invokes the callback
exactly once under its handle when the handle has not been disposed, and makes no invocation under
that handle when it has. -/
theorem shutdown_invokes_held_subscriptions (before after : List Action) (callback : String)
    (hconn : connectedAfter
      (before ++ Action.subscribeShutdownReceived callback :: after) = true) :
    invocationsOf
        ((Agent.run Agent.created before).pools.subscribeShutdownReceived callback).1
        (Agent.run Agent.created
          (before ++ Action.subscribeShutdownReceived callback :: after)).shutdown
      = if disposes
            ((Agent.run Agent.created before).pools.subscribeShutdownReceived callback).1 after
        then []
        else [(((Agent.run Agent.created before).pools.subscribeShutdownReceived callback).1,
                callback)] := by
  have hw := Agent.wired_run (before ++ Action.subscribeShutdownReceived callback :: after)
    Agent.created false Agent.wired_created rfl
  have hc : (Agent.run Agent.created
      (before ++ Action.subscribeShutdownReceived callback :: after)).pools.shutdownReceivedSubscription.isSome
      = true := by
    rw [← hw.2]
    exact hconn
  rw [Agent.shutdown_of_wired _ hw.1 hc]
  have hissued : (Agent.run Agent.created before).pools.shutdownReceived.Issued :=
    Agent.issued_run before Agent.created (by
      intro s hs
      simp [Agent.created, ServerPools.new, details.Event.empty] at hs)
  have hnone := invocationsOf_of_issued _ hissued
  rw [Agent.run_append]
  show invocationsOf _ (Agent.run ((Agent.run Agent.created before).step
    (Action.subscribeShutdownReceived callback)) after).pools.shutdownReceived.subscriptions = _
  rw [Agent.invocationsOf_run after _ _ (by
    simp [Agent.step, ServerPools.subscribeShutdownReceived, details.Event.subscribe])]
  have hnow : invocationsOf
      ((Agent.run Agent.created before).pools.subscribeShutdownReceived callback).1
      ((Agent.run Agent.created before).step
        (Action.subscribeShutdownReceived callback)).pools.shutdownReceived.subscriptions
      = [(((Agent.run Agent.created before).pools.subscribeShutdownReceived callback).1,
          callback)] := by
    simp only [Agent.step, ServerPools.subscribeShutdownReceived, details.Event.subscribe,
      invocationsOf, List.filter_append] at hnone ⊢
    rw [hnone]
    simp
  rw [hnow]

/-- C7 on an agent with two subscribers, `a` then `b`, connected, where the handle of `a` is
disposed before the event: `b` is invoked once under its handle 1, `a` under its handle 0 not at
all. -/
theorem shutdown_invokes_held_subscriptions_witness :
    invocationsOf 1
        (Agent.run Agent.created
          [Action.subscribeShutdownReceived "a", Action.subscribeShutdownReceived "b",
            Action.sceneConnecting, Action.dispose 0]).shutdown
      = [(1, "b")] ∧
    invocationsOf 0
        (Agent.run Agent.created
          [Action.subscribeShutdownReceived "a", Action.subscribeShutdownReceived "b",
            Action.sceneConnecting, Action.dispose 0]).shutdown
      = [] :=
  ⟨shutdown_invokes_held_subscriptions [Action.subscribeShutdownReceived "a"]
      [Action.sceneConnecting, Action.dispose 0] "b" (by decide),
   shutdown_invokes_held_subscriptions []
      [Action.subscribeShutdownReceived "b", Action.sceneConnecting, Action.dispose 0] "a"
      (by decide)⟩

end ServerPools
end Stormancer
